import Mathlib

/-!
Shallow embedding of the "Outbound Hypothesis Lab" Streamlit application
(`streamlit_outbound_lab_app.py` and `streamlit_outbound_lab_app_v2.py`).

The SQLAlchemy tables become Lean structures, the SQLite database becomes a
`Store` of lists (one per table) plus per-table autoincrement counters, and
each user action (campaign creation, CSV ingestion, cadence-activity fan-out,
contact-to-opportunity conversion, overview metrics) becomes a pure function
on `Store`.  Timestamp columns are omitted: no operation modelled here reads
them.  CSV rows are modelled as string-valued records in which an absent or
blank cell is the empty string (pandas-level NaN coercion is outside the
scope of this embedding).  Monetary amounts (Python floats that are only
stored and copied, never computed with) are modelled as rationals.
-/

/-- Campaign table (`campaigns`): unique name plus optional hypothesis
metadata, from the `Campaign` model class. -/
structure Campaign where
  id : Nat
  name : String
  hypothesis_type : Option String
  industry : Option String
  icp_personas : Option String
  message_angle : Option String
  trigger : Option String
  product : Option String
  hypothesis_user_story : Option String
  deriving Repr, DecidableEq

/-- Document table (`documents`): belongs to a campaign, records a display
name and the stored file path. -/
structure Document where
  id : Nat
  campaign_id : Nat
  name : String
  file_path : String
  deriving Repr, DecidableEq

/-- Cadence table (`cadences`): 1:1 with a campaign. -/
structure Cadence where
  id : Nat
  campaign_id : Nat
  name : String
  description : Option String
  deriving Repr, DecidableEq

/-- CadenceActivity table (`cadence_activities`, v2 only): an activity
template attached to a cadence. -/
structure CadenceActivity where
  id : Nat
  cadence_id : Nat
  type : String
  content : Option String
  deriving Repr, DecidableEq

/-- Account table (`accounts`): unique name, optional industry/website. -/
structure Account where
  id : Nat
  name : String
  industry : Option String
  website : Option String
  deriving Repr, DecidableEq

/-- AccountSignal table (`account_signals`). -/
structure AccountSignal where
  id : Nat
  account_id : Nat
  signal_type : String
  details : Option String
  deriving Repr, DecidableEq

/-- Contact table (`contacts`): belongs to a cadence, optionally to an
account; status defaults to "new". -/
structure Contact where
  id : Nat
  cadence_id : Nat
  first_name : Option String
  last_name : Option String
  email : String
  account_id : Option Nat
  title : Option String
  status : String
  deriving Repr, DecidableEq

/-- Activity table (`activities`): a concrete touchpoint on one contact. -/
structure Activity where
  id : Nat
  contact_id : Nat
  type : String
  content : Option String
  deriving Repr, DecidableEq

/-- Opportunity table (`opportunities`): stage defaults to "New"; the float
amount is modelled as a rational (it is only stored, never computed with). -/
structure Opportunity where
  id : Nat
  contact_id : Nat
  stage : String
  amount : Rat
  deriving Repr, DecidableEq

/-- The SQLite database: one list per table plus per-table autoincrement
counters (SQLite assigns rowids 1, 2, ... per table; flushed objects receive
the next id). -/
structure Store where
  campaigns : List Campaign
  documents : List Document
  cadences : List Cadence
  cadenceActivities : List CadenceActivity
  accounts : List Account
  accountSignals : List AccountSignal
  contacts : List Contact
  activities : List Activity
  opportunities : List Opportunity
  nextCampaignId : Nat
  nextAccountId : Nat
  nextContactId : Nat
  nextActivityId : Nat
  nextOpportunityId : Nat
  nextCadenceActivityId : Nat
  deriving Repr

/-- One CSV row as seen by the ingestion loops.  Every recognized column is
a string; a missing column or blank cell is the empty string (both make the
corresponding `str(row.get(col, "")) or ...` expression fall through). -/
structure Row where
  email : String
  first_name : String
  last_name : String
  title : String
  account_name : String
  account_industry : String
  account_website : String
  deriving Repr, DecidableEq

/-- Python's `str.strip()`: drop whitespace from both ends.  Modelled over
the character list so that concrete instances reduce inside the kernel. -/
def pyStrip (s : String) : String :=
  ⟨((s.data.dropWhile Char.isWhitespace).reverse.dropWhile Char.isWhitespace).reverse⟩

/-- Python's `str.lower()` (the titles and paths compared are ASCII). -/
def pyLower (s : String) : String := ⟨s.data.map Char.toLower⟩

/-- Python's `str.endswith(pat)`. -/
def pyEndsWith (s pat : String) : Bool := decide (pat.data <:+ s.data)

/-- Update of the first element of a list satisfying a predicate, leaving
all others in place.  This models SQLAlchemy mutating the single ORM object
returned by `.first()`. -/
def updateFirst (p : α → Bool) (f : α → α) : List α → List α
  | [] => []
  | x :: xs => if p x then f x :: xs else x :: updateFirst p f xs

/-- Account row built from a CSV row (`Account(name=acct_name, industry=...,
website=...)` with `str(...) or None` normalizing empty strings to NULL). -/
def newAccountOfRow (s : Store) (r : Row) : Account :=
  { id := s.nextAccountId
    name := pyStrip r.account_name
    industry := if r.account_industry = "" then none else some r.account_industry
    website := if r.account_website = "" then none else some r.account_website }

/-- Account handling per ingested row (identical in both source files): if
`account_name` strips to non-empty, look the account up by exact name and
create it when absent (the flush assigns the next id); return the updated
store and the resolved account id, `none` when the row has no account name. -/
def resolveAccount (s : Store) (r : Row) : Store × Option Nat :=
  if pyStrip r.account_name = "" then (s, none)
  else
    match s.accounts.find? (fun a => a.name == pyStrip r.account_name) with
    | some a => (s, some a.id)
    | none =>
        ({ s with
            accounts := s.accounts ++ [newAccountOfRow s r]
            nextAccountId := s.nextAccountId + 1 },
         some s.nextAccountId)

/-- Update of an existing contact during upsert, from
`existing.first_name = str(row.get("first_name", existing.first_name or ""))
or existing.first_name` (and likewise for last_name/title): a non-empty
incoming value overwrites, an empty one preserves the stored value; the
account reference is reassigned only when an account id was resolved
(`if account_id:` is a None test, since flushed ids are positive). -/
def updateExisting (c : Contact) (r : Row) (accountId : Option Nat) : Contact :=
  { c with
    first_name := if r.first_name = "" then c.first_name else some r.first_name
    last_name := if r.last_name = "" then c.last_name else some r.last_name
    title := if r.title = "" then c.title else some r.title
    account_id := if accountId.isSome then accountId else c.account_id }

/-- Fresh contact created during upsert (`Contact(cadence_id=..., email=...,
first_name=str(...) or None, ...)`); status takes the column default "new". -/
def newContact (cid contactId : Nat) (r : Row) (accountId : Option Nat)
    (email : String) : Contact :=
  { id := contactId
    cadence_id := cid
    first_name := if r.first_name = "" then none else some r.first_name
    last_name := if r.last_name = "" then none else some r.last_name
    email := email
    account_id := accountId
    title := if r.title = "" then none else some r.title
    status := "new" }

/-- Predicate used by the contact upsert lookup
(`filter_by(cadence_id=cadence.id, email=email)`). -/
def contactMatch (cid : Nat) (email : String) (c : Contact) : Bool :=
  c.cadence_id == cid && c.email == email

/-- One loop iteration of the v1 contact ingestion (lines 331-369 of
`streamlit_outbound_lab_app.py`): skip a blank email, resolve the account,
then upsert the contact keyed on (cadence, email).  Returns the new store and
this row's contribution to the `ingested` counter. -/
def ingestRowV1 (cid : Nat) (s : Store) (r : Row) : Store × Nat :=
  if pyStrip r.email = "" then (s, 0)
  else
    match ((resolveAccount s r).1).contacts.find? (contactMatch cid (pyStrip r.email)) with
    | some _ =>
        ({ (resolveAccount s r).1 with
            contacts := updateFirst (contactMatch cid (pyStrip r.email))
              (fun c => updateExisting c r (resolveAccount s r).2)
              ((resolveAccount s r).1).contacts }, 1)
    | none =>
        ({ (resolveAccount s r).1 with
            contacts := ((resolveAccount s r).1).contacts ++
              [newContact cid ((resolveAccount s r).1).nextContactId r
                (resolveAccount s r).2 (pyStrip r.email)]
            nextContactId := ((resolveAccount s r).1).nextContactId + 1 }, 1)

/-- The whole v1 ingestion loop: fold the rows through `ingestRowV1`,
summing the counter. -/
def ingestContactsV1 (cid : Nat) : Store → List Row → Store × Nat
  | s, [] => (s, 0)
  | s, r :: rest =>
      ((ingestContactsV1 cid (ingestRowV1 cid s r).1 rest).1,
       (ingestRowV1 cid s r).2 + (ingestContactsV1 cid (ingestRowV1 cid s r).1 rest).2)

/-- Activities stamped from the cadence templates onto one resolved contact
(the v2 `for ca in cad_acts: db.add(Activity(contact_id=contact_id,
type=ca.type, content=ca.content))` loop), with autoincrement ids. -/
def templActivities (startId contactId : Nat) : List CadenceActivity → List Activity
  | [] => []
  | ca :: rest =>
      { id := startId, contact_id := contactId, type := ca.type, content := ca.content } ::
        templActivities (startId + 1) contactId rest

/-- One loop iteration of the v2 lead ingestion (lines 532-572 of
`streamlit_outbound_lab_app_v2.py`): the same upsert as v1, followed by
stamping one Activity per cadence-activity template (the `cad_acts` snapshot
taken before the loop) onto the resolved contact. -/
def ingestRowV2 (cid : Nat) (cadActs : List CadenceActivity) (s : Store) (r : Row) :
    Store × Nat :=
  if pyStrip r.email = "" then (s, 0)
  else
    match ((resolveAccount s r).1).contacts.find? (contactMatch cid (pyStrip r.email)) with
    | some c =>
        (let s2 : Store :=
          { (resolveAccount s r).1 with
              contacts := updateFirst (contactMatch cid (pyStrip r.email))
                (fun c2 => updateExisting c2 r (resolveAccount s r).2)
                ((resolveAccount s r).1).contacts }
         { s2 with
            activities := s2.activities ++ templActivities s2.nextActivityId c.id cadActs
            nextActivityId := s2.nextActivityId + cadActs.length }, 1)
    | none =>
        (let s2 : Store :=
          { (resolveAccount s r).1 with
              contacts := ((resolveAccount s r).1).contacts ++
                [newContact cid ((resolveAccount s r).1).nextContactId r
                  (resolveAccount s r).2 (pyStrip r.email)]
              nextContactId := ((resolveAccount s r).1).nextContactId + 1 }
         { s2 with
            activities := s2.activities ++
              templActivities s2.nextActivityId ((resolveAccount s r).1).nextContactId cadActs
            nextActivityId := s2.nextActivityId + cadActs.length }, 1)

/-- The v2 ingestion loop body, parameterized by the template snapshot. -/
def ingestRowsV2 (cid : Nat) (cadActs : List CadenceActivity) :
    Store → List Row → Store × Nat
  | s, [] => (s, 0)
  | s, r :: rest =>
      ((ingestRowsV2 cid cadActs (ingestRowV2 cid cadActs s r).1 rest).1,
       (ingestRowV2 cid cadActs s r).2 +
         (ingestRowsV2 cid cadActs (ingestRowV2 cid cadActs s r).1 rest).2)

/-- The whole v2 "Ingest Leads & Apply Cadence Activities" action: the
template list is queried once before the loop (line 521), then every row is
ingested against that snapshot. -/
def ingestLeadsV2 (cid : Nat) (s : Store) (rows : List Row) : Store × Nat :=
  ingestRowsV2 cid (s.cadenceActivities.filter (fun ca => ca.cadence_id == cid)) s rows

/-- Activities stamped onto every existing lead of a cadence when a template
is added (v2 `section_cadences`, lines 489-491), with autoincrement ids. -/
def stampActivities (startId : Nat) (ty content : String) : List Contact → List Activity
  | [] => []
  | l :: ls =>
      { id := startId, contact_id := l.id, type := ty, content := some content } ::
        stampActivities (startId + 1) ty content ls

/-- The v2 "Add Activity to Cadence & Apply to Leads" action (lines 484-493):
create the CadenceActivity template (content stripped), then create one
Activity with the same type and content on every contact of the cadence. -/
def addCadenceActivity (s : Store) (cid : Nat) (act_type content : String) : Store :=
  { s with
    cadenceActivities := s.cadenceActivities ++
      [{ id := s.nextCadenceActivityId, cadence_id := cid, type := act_type,
         content := some (pyStrip content) }]
    nextCadenceActivityId := s.nextCadenceActivityId + 1
    activities := s.activities ++
      stampActivities s.nextActivityId act_type (pyStrip content)
        (s.contacts.filter (fun l => l.cadence_id == cid))
    nextActivityId := s.nextActivityId +
      (s.contacts.filter (fun l => l.cadence_id == cid)).length }

/-- The v1 "Convert to Opportunity" action (lines 401-408): fetch the contact
by primary key, add one Opportunity with the chosen stage and amount, and set
the contact's status to "converted".  `none` models the crash on a missing
contact id. -/
def convertContact (s : Store) (contactId : Nat) (stage : String) (amount : Rat) :
    Option Store :=
  match s.contacts.find? (fun c => c.id == contactId) with
  | none => none
  | some c =>
      some { s with
        contacts := updateFirst (fun c2 => c2.id == contactId)
          (fun c2 => { c2 with status := "converted" }) s.contacts
        opportunities := s.opportunities ++
          [{ id := s.nextOpportunityId, contact_id := c.id, stage := stage, amount := amount }]
        nextOpportunityId := s.nextOpportunityId + 1 }

/-- Possible outcomes of the "Create Campaign" form handling: the missing
required-name warning, the application-level duplicate-name error, and the
commit-time UNIQUE-constraint violation. -/
inductive CreateError
  | validation
  | conflict
  | integrity
  deriving Repr, DecidableEq

/-- Text-input normalization used by campaign creation:
`value.strip() if value else None`. -/
def optStrip (x : String) : Option String := if x = "" then none else some (pyStrip x)

/-- The "Create Campaign" action (v1 lines 205-226, identical in v2): an
empty submitted name warns; a name matching an existing campaign raises the
duplicate-name error; otherwise the campaign is inserted with stripped
fields, and the commit enforces the UNIQUE constraint on the stored
(stripped) name.  On any error the store is returned unchanged (the single
add+commit is atomic). -/
def createCampaign (s : Store) (name ht ind icp ma trig prod story : String) :
    Store × Option CreateError :=
  if name = "" then (s, some CreateError.validation)
  else if (s.campaigns.find? (fun c => c.name == name)).isSome then
    (s, some CreateError.conflict)
  else if s.campaigns.any (fun c => c.name == pyStrip name) then
    (s, some CreateError.integrity)
  else
    ({ s with
        campaigns := s.campaigns ++
          [{ id := s.nextCampaignId, name := pyStrip name, hypothesis_type := optStrip ht,
             industry := optStrip ind, icp_personas := optStrip icp,
             message_angle := optStrip ma, trigger := optStrip trig,
             product := optStrip prod, hypothesis_user_story := optStrip story }]
        nextCampaignId := s.nextCampaignId + 1 }, none)

/-- Substring containment, modelling Python's `pat in t` on strings. -/
def containsSub (t pat : String) : Bool := decide (pat.data <:+: t.data)

/-- The `_classify_department` helper (v1 lines 512-522 = v2 lines 198-208):
lowercase the title, then first match wins among "seo", the management
keywords, and "marketing"; a missing or empty title is unclassified. -/
def classify_department (title : Option String) : Option String :=
  match title with
  | none => none
  | some title =>
      if title = "" then none
      else
        if containsSub (pyLower title) "seo" then some "Mrktg: SEO"
        else if ["vp", "head", "director", "manager"].any
            (fun k => containsSub (pyLower title) k) then some "Mrktg: Management"
        else if containsSub (pyLower title) "marketing" then some "Mrktg: General"
        else none

/-- The department tally loop of the overview pages: labels are collected in
first-seen order, and the two pre-seeded counter keys ("Mrktg: SEO" and
"Mrktg: Management") are incremented on match. -/
def deptFold : List Contact → List String → Nat → Nat → List String × Nat × Nat
  | [], labels, seo, mgmt => (labels, seo, mgmt)
  | c :: rest, labels, seo, mgmt =>
      match classify_department c.title with
      | none => deptFold rest labels seo mgmt
      | some dep =>
          deptFold rest
            (if labels.contains dep then labels else labels ++ [dep])
            (if dep == "Mrktg: SEO" then seo + 1 else seo)
            (if dep == "Mrktg: Management" then mgmt + 1 else mgmt)

/-- The derived per-campaign metrics of the overview pages.  `hasPptx` and
`hasCadence` are the booleans behind the "v"/"" cells; the rates are the
hard-coded zero placeholders. -/
structure Metrics where
  hasPptx : Bool
  hasCadence : Bool
  accountCount : Nat
  leadCount : Nat
  deptLabels : List String
  seoCount : Nat
  mgmtCount : Nat
  engagedLeads : Nat
  exhaustedLeads : Nat
  replyRate : Nat
  meetingRate : Nat
  signalCount : Nat
  opportunityCount : Nat
  deriving Repr, DecidableEq

/-- The overview computation for one campaign (v1 `section_overview` lines
538-605; the v2 per-campaign loop is the same computation): load the
campaign's cadence, its contacts (empty when there is no cadence), the
referenced accounts' signals and the contacts' opportunities and activities,
then derive the summary counters. -/
def computeMetrics (s : Store) (campaignId : Nat) : Metrics :=
  let cadence := s.cadences.find? (fun cd => cd.campaign_id == campaignId)
  let docs := s.documents.filter (fun d => d.campaign_id == campaignId)
  let contacts := match cadence with
    | some cd => s.contacts.filter (fun c => c.cadence_id == cd.id)
    | none => []
  let contact_ids := contacts.map (fun c => c.id)
  let account_ids := contacts.filterMap (fun c => c.account_id)
  let signals := if account_ids.isEmpty then []
    else s.accountSignals.filter (fun g => account_ids.contains g.account_id)
  let opps := if contact_ids.isEmpty then []
    else s.opportunities.filter (fun o => contact_ids.contains o.contact_id)
  let acts := if contact_ids.isEmpty then []
    else s.activities.filter (fun a => contact_ids.contains a.contact_id)
  let dept := deptFold contacts [] 0 0
  { hasPptx := (docs.filter (fun d => pyEndsWith (pyLower d.file_path) ".pptx")).length > 0
    hasCadence := cadence.isSome
    accountCount := account_ids.dedup.length
    leadCount := contacts.length
    deptLabels := dept.1
    seoCount := dept.2.1
    mgmtCount := dept.2.2
    engagedLeads := if acts.isEmpty then 0 else ((acts.map (fun a => a.contact_id)).dedup).length
    exhaustedLeads := if contacts.isEmpty then 0
      else (contacts.filter (fun c => c.status == "paused")).length
    replyRate := 0
    meetingRate := 0
    signalCount := signals.length
    opportunityCount := opps.length }

/-- Modelled from the spec: the department classifier as §4.3 words it, with
the label spelling corrected to the code's literals ("Mrktg: ..."), used as
the specification side of the refinement theorem for the classifier. -/
def classify_department_spec (title : Option String) : Option String :=
  match title with
  | none => none
  | some title =>
      if containsSub (pyLower title) "seo" then some "Mrktg: SEO"
      else if ["vp", "head", "director", "manager"].any
          (fun k => containsSub (pyLower title) k) then some "Mrktg: Management"
      else if containsSub (pyLower title) "marketing" then some "Mrktg: General"
      else none

/-- Concrete contact used by the witness theorems. -/
def sampleContact : Contact :=
  { id := 1, cadence_id := 1, first_name := some "Ann", last_name := none,
    email := "a@x.com", account_id := none, title := some "Head of SEO", status := "new" }

/-- Concrete campaign used by the witness theorems. -/
def sampleCampaign : Campaign :=
  { id := 1, name := "Q1-SEO", hypothesis_type := none, industry := none,
    icp_personas := none, message_angle := none, trigger := none, product := none,
    hypothesis_user_story := none }

/-- Concrete store used by the witness theorems: one campaign (with no
cadence row), one account, one contact in cadence 1, one cadence-activity
template for cadence 1. -/
def sampleStore : Store :=
  { campaigns := [sampleCampaign]
    documents := []
    cadences := []
    cadenceActivities := [{ id := 1, cadence_id := 1, type := "email", content := some "intro" }]
    accounts := [{ id := 1, name := "Acme", industry := none, website := none }]
    accountSignals := []
    contacts := [sampleContact]
    activities := []
    opportunities := []
    nextCampaignId := 2
    nextAccountId := 2
    nextContactId := 2
    nextActivityId := 1
    nextOpportunityId := 1
    nextCadenceActivityId := 2 }

/-- Concrete row whose email is whitespace-only (a skipped row). -/
def rowBlank : Row :=
  { email := "   ", first_name := "X", last_name := "Y", title := "T",
    account_name := "Acme", account_industry := "", account_website := "" }

/-- Concrete row that re-ingests `sampleContact`'s (email, cadence) pair with
a non-empty first name, an empty title and an existing account name. -/
def rowGood : Row :=
  { email := "a@x.com", first_name := "Bob", last_name := "", title := "",
    account_name := "Acme", account_industry := "", account_website := "" }

/-- A successful `find?` splits its list around the first match, with every
earlier element failing the predicate. -/
theorem find?_decomp {α : Type} {p : α → Bool} {l : List α} {c : α}
    (h : l.find? p = some c) :
    ∃ pre post, l = pre ++ c :: post ∧ ∀ x ∈ pre, p x = false := by
  induction l with
  | nil => simp at h
  | cons x xs ih =>
      by_cases hp : p x = true
      · rw [List.find?_cons_of_pos _ hp] at h
        cases h
        exact ⟨[], xs, rfl, by simp⟩
      · rw [Bool.not_eq_true] at hp
        rw [List.find?_cons_of_neg _ (by simp [hp])] at h
        obtain ⟨pre, post, hl, hpre⟩ := ih h
        refine ⟨x :: pre, post, by rw [hl]; rfl, ?_⟩
        intro y hy
        rcases List.mem_cons.mp hy with rfl | hy'
        · exact hp
        · exact hpre y hy'

/-- `updateFirst` rewrites exactly the first match of a decomposed list. -/
theorem updateFirst_append {α : Type} (p : α → Bool) (f : α → α) :
    ∀ (pre : List α) (c : α) (post : List α),
      (∀ x ∈ pre, p x = false) → p c = true →
      updateFirst p f (pre ++ c :: post) = pre ++ f c :: post := by
  intro pre
  induction pre with
  | nil => intro c post _ hc; simp [updateFirst, hc]
  | cons x xs ih =>
      intro c post hpre hc
      have hx : p x = false := hpre x (List.mem_cons_self x xs)
      simp only [List.cons_append, updateFirst, hx]
      simp [ih c post (fun y hy => hpre y (List.mem_cons_of_mem x hy)) hc]

/-- `find?` on a decomposed list returns the designated first match. -/
theorem find?_first_of_split {α : Type} (p : α → Bool) :
    ∀ (pre : List α) (c : α) (post : List α),
      (∀ x ∈ pre, p x = false) → p c = true →
      (pre ++ c :: post).find? p = some c := by
  intro pre
  induction pre with
  | nil => intro c post _ hc; simpa using List.find?_cons_of_pos _ hc
  | cons x xs ih =>
      intro c post hpre hc
      have hx : p x = false := hpre x (List.mem_cons_self x xs)
      simp only [List.cons_append]
      rw [List.find?_cons_of_neg _ (by simp [hx])]
      exact ih c post (fun y hy => hpre y (List.mem_cons_of_mem x hy)) hc

/-- Stamped template activities: one per template. -/
theorem templActivities_length (contactId : Nat) :
    ∀ (cas : List CadenceActivity) (startId : Nat),
      (templActivities startId contactId cas).length = cas.length
  | [], _ => rfl
  | ca :: rest, startId => by
      simp [templActivities, templActivities_length contactId rest (startId + 1)]

/-- Stamped template activities copy each template's type and content in
order. -/
theorem templActivities_pairs (contactId : Nat) :
    ∀ (cas : List CadenceActivity) (startId : Nat),
      (templActivities startId contactId cas).map (fun a => (a.type, a.content)) =
        cas.map (fun ca => (ca.type, ca.content))
  | [], _ => rfl
  | ca :: rest, startId => by
      simp [templActivities, templActivities_pairs contactId rest (startId + 1)]

/-- Stamped template activities all target the resolved contact. -/
theorem templActivities_contact (contactId : Nat) :
    ∀ (cas : List CadenceActivity) (startId : Nat),
      ∀ a ∈ templActivities startId contactId cas, a.contact_id = contactId
  | [], _ => by intro a ha; simp [templActivities] at ha
  | ca :: rest, startId => by
      intro a ha
      rcases List.mem_cons.mp ha with rfl | ha'
      · rfl
      · exact templActivities_contact contactId rest (startId + 1) a ha'

/-- Fan-out stamping: one activity per lead. -/
theorem stampActivities_length (ty content : String) :
    ∀ (ls : List Contact) (startId : Nat),
      (stampActivities startId ty content ls).length = ls.length
  | [], _ => rfl
  | l :: ls, startId => by
      simp [stampActivities, stampActivities_length ty content ls (startId + 1)]

/-- Fan-out stamping targets the cadence's contacts in order. -/
theorem stampActivities_contacts (ty content : String) :
    ∀ (ls : List Contact) (startId : Nat),
      (stampActivities startId ty content ls).map (fun a => a.contact_id) =
        ls.map (fun l => l.id)
  | [], _ => rfl
  | l :: ls, startId => by
      simp [stampActivities, stampActivities_contacts ty content ls (startId + 1)]

/-- Every fan-out activity carries the template's type and content. -/
theorem stampActivities_fields (ty content : String) :
    ∀ (ls : List Contact) (startId : Nat),
      ∀ a ∈ stampActivities startId ty content ls, a.type = ty ∧ a.content = some content
  | [], _ => by intro a ha; simp [stampActivities] at ha
  | l :: ls, startId => by
      intro a ha
      rcases List.mem_cons.mp ha with rfl | ha'
      · exact ⟨rfl, rfl⟩
      · exact stampActivities_fields ty content ls (startId + 1) a ha'

/-- Account resolution touches only the accounts table and its counter. -/
theorem resolveAccount_frame (s : Store) (r : Row) :
    ((resolveAccount s r).1).contacts = s.contacts ∧
    ((resolveAccount s r).1).activities = s.activities ∧
    ((resolveAccount s r).1).opportunities = s.opportunities ∧
    ((resolveAccount s r).1).campaigns = s.campaigns ∧
    ((resolveAccount s r).1).cadences = s.cadences ∧
    ((resolveAccount s r).1).documents = s.documents ∧
    ((resolveAccount s r).1).accountSignals = s.accountSignals ∧
    ((resolveAccount s r).1).cadenceActivities = s.cadenceActivities ∧
    ((resolveAccount s r).1).nextContactId = s.nextContactId ∧
    ((resolveAccount s r).1).nextActivityId = s.nextActivityId ∧
    ((resolveAccount s r).1).nextOpportunityId = s.nextOpportunityId := by
  unfold resolveAccount
  by_cases h : pyStrip r.account_name = ""
  · simp [h]
  · simp only [if_neg h]
    cases s.accounts.find? (fun a => a.name == pyStrip r.account_name) <;> simp

/-- A non-empty stripped account name always resolves to some account id. -/
theorem resolveAccount_isSome (s : Store) (r : Row) (h : pyStrip r.account_name ≠ "") :
    ((resolveAccount s r).2).isSome = true := by
  unfold resolveAccount
  simp only [if_neg h]
  cases s.accounts.find? (fun a => a.name == pyStrip r.account_name) <;> simp

/-- Account resolution preserves distinctness of account names: a present
name is reused, an absent one is added exactly once. -/
theorem resolveAccount_names_nodup (s : Store) (r : Row)
    (h : (s.accounts.map (fun a => a.name)).Nodup) :
    (((resolveAccount s r).1).accounts.map (fun a => a.name)).Nodup := by
  unfold resolveAccount
  by_cases he : pyStrip r.account_name = ""
  · simpa [he] using h
  · simp only [if_neg he]
    cases hf : s.accounts.find? (fun a => a.name == pyStrip r.account_name) with
    | some a => simpa using h
    | none =>
        have hnotin : ∀ a ∈ s.accounts, ¬ a.name = pyStrip r.account_name := by
          intro a ha
          have hfa := List.find?_eq_none.mp hf a ha
          simpa using hfa
        simp only [List.map_append]
        refine List.Nodup.append h (by simp) ?_
        intro x hx hy
        simp only [List.map_cons, List.map_nil, List.mem_singleton, newAccountOfRow] at hy
        obtain ⟨a, ha, hax⟩ := List.mem_map.mp hx
        exact hnotin a ha (hax.trans hy)

/-- With distinct account names, looking up a stored account's name finds
exactly that account. -/
theorem find?_account_name_of_nodup (n : String) :
    ∀ (l : List Account) (a : Account),
      (l.map (fun x => x.name)).Nodup → a ∈ l → a.name = n →
      l.find? (fun x => x.name == n) = some a := by
  intro l
  induction l with
  | nil => intro a _ ha _; simp at ha
  | cons x xs ih =>
      intro a hnodup ha hn
      rcases List.mem_cons.mp ha with rfl | ha'
      · exact List.find?_cons_of_pos _ (by simp [hn])
      · have hx' : x.name ∉ xs.map (fun y => y.name) :=
          (List.nodup_cons.mp (by simpa using hnodup)).1
        have hxname : ¬ x.name = n := by
          intro hx
          exact hx' (by rw [hx, ← hn]; exact List.mem_map.mpr ⟨a, ha', rfl⟩)
        rw [List.find?_cons_of_neg _ (by simp [hxname])]
        exact ih a (List.nodup_cons.mp (by simpa using hnodup)).2 ha' hn

/-- With distinct account names, a row naming a stored account reuses it and
creates nothing. -/
theorem resolveAccount_reuses (s : Store) (r : Row) (a : Account)
    (hnodup : (s.accounts.map (fun x => x.name)).Nodup)
    (hne : pyStrip r.account_name ≠ "")
    (ha : a ∈ s.accounts) (hn : a.name = pyStrip r.account_name) :
    resolveAccount s r = (s, some a.id) := by
  unfold resolveAccount
  rw [if_neg hne, find?_account_name_of_nodup (pyStrip r.account_name) s.accounts a hnodup ha hn]

/-- A row with a blank email is skipped by the v1 ingestion: the store is
untouched and the row contributes nothing to the counter. -/
theorem ingestRowV1_skip (cid : Nat) (s : Store) (r : Row) (h : pyStrip r.email = "") :
    ingestRowV1 cid s r = (s, 0) := by
  unfold ingestRowV1
  simp [h]

/-- A row with a blank email is skipped by the v2 ingestion as well. -/
theorem ingestRowV2_skip (cid : Nat) (cadActs : List CadenceActivity) (s : Store)
    (r : Row) (h : pyStrip r.email = "") :
    ingestRowV2 cid cadActs s r = (s, 0) := by
  unfold ingestRowV2
  simp [h]

/-- Each v1 row contributes 1 to the counter unless skipped. -/
theorem ingestRowV1_count (cid : Nat) (s : Store) (r : Row) :
    (ingestRowV1 cid s r).2 = if pyStrip r.email = "" then 0 else 1 := by
  unfold ingestRowV1
  by_cases he : pyStrip r.email = ""
  · simp [he]
  · simp only [if_neg he]
    cases ((resolveAccount s r).1).contacts.find? (contactMatch cid (pyStrip r.email)) <;>
      simp [he]

/-- Each v2 row contributes 1 to the counter unless skipped. -/
theorem ingestRowV2_count (cid : Nat) (cadActs : List CadenceActivity) (s : Store)
    (r : Row) :
    (ingestRowV2 cid cadActs s r).2 = if pyStrip r.email = "" then 0 else 1 := by
  unfold ingestRowV2
  by_cases he : pyStrip r.email = ""
  · simp [he]
  · simp only [if_neg he]
    cases ((resolveAccount s r).1).contacts.find? (contactMatch cid (pyStrip r.email)) <;>
      simp [he]

/-- The v1 batch counter equals the number of non-skipped rows. -/
theorem ingestContactsV1_count (cid : Nat) :
    ∀ (rows : List Row) (s : Store),
      (ingestContactsV1 cid s rows).2 =
        (rows.filter (fun r => !(pyStrip r.email == ""))).length
  | [], s => rfl
  | r :: rest, s => by
      by_cases he : pyStrip r.email = ""
      · simp [ingestContactsV1, ingestRowV1_count, he,
          ingestContactsV1_count cid rest (ingestRowV1 cid s r).1, List.filter_cons]
      · simp [ingestContactsV1, ingestRowV1_count, he,
          ingestContactsV1_count cid rest (ingestRowV1 cid s r).1, List.filter_cons]
        omega

/-- The v2 batch counter equals the number of non-skipped rows. -/
theorem ingestRowsV2_count (cid : Nat) (cadActs : List CadenceActivity) :
    ∀ (rows : List Row) (s : Store),
      (ingestRowsV2 cid cadActs s rows).2 =
        (rows.filter (fun r => !(pyStrip r.email == ""))).length
  | [], s => rfl
  | r :: rest, s => by
      by_cases he : pyStrip r.email = ""
      · simp [ingestRowsV2, ingestRowV2_count, he,
          ingestRowsV2_count cid cadActs rest (ingestRowV2 cid cadActs s r).1,
          List.filter_cons]
      · simp [ingestRowsV2, ingestRowV2_count, he,
          ingestRowsV2_count cid cadActs rest (ingestRowV2 cid cadActs s r).1,
          List.filter_cons]
        omega

/-- One v1 ingestion step preserves distinctness of account names. -/
theorem ingestRowV1_names_nodup (cid : Nat) (s : Store) (r : Row)
    (h : (s.accounts.map (fun a => a.name)).Nodup) :
    ((((ingestRowV1 cid s r).1).accounts).map (fun a => a.name)).Nodup := by
  unfold ingestRowV1
  by_cases he : pyStrip r.email = ""
  · simpa [he] using h
  · simp only [if_neg he]
    cases ((resolveAccount s r).1).contacts.find? (contactMatch cid (pyStrip r.email)) with
    | some c => simpa using resolveAccount_names_nodup s r h
    | none => simpa using resolveAccount_names_nodup s r h

/-- One v2 ingestion step preserves distinctness of account names. -/
theorem ingestRowV2_names_nodup (cid : Nat) (cadActs : List CadenceActivity)
    (s : Store) (r : Row)
    (h : (s.accounts.map (fun a => a.name)).Nodup) :
    ((((ingestRowV2 cid cadActs s r).1).accounts).map (fun a => a.name)).Nodup := by
  unfold ingestRowV2
  by_cases he : pyStrip r.email = ""
  · simpa [he] using h
  · simp only [if_neg he]
    cases ((resolveAccount s r).1).contacts.find? (contactMatch cid (pyStrip r.email)) with
    | some c => simpa using resolveAccount_names_nodup s r h
    | none => simpa using resolveAccount_names_nodup s r h

/-- The whole v1 batch preserves distinctness of account names. -/
theorem ingestContactsV1_names_nodup (cid : Nat) :
    ∀ (rows : List Row) (s : Store),
      (s.accounts.map (fun a => a.name)).Nodup →
      ((((ingestContactsV1 cid s rows).1).accounts).map (fun a => a.name)).Nodup
  | [], s, h => h
  | r :: rest, s, h =>
      ingestContactsV1_names_nodup cid rest (ingestRowV1 cid s r).1
        (ingestRowV1_names_nodup cid s r h)

/-- The whole v2 batch preserves distinctness of account names. -/
theorem ingestRowsV2_names_nodup (cid : Nat) (cadActs : List CadenceActivity) :
    ∀ (rows : List Row) (s : Store),
      (s.accounts.map (fun a => a.name)).Nodup →
      ((((ingestRowsV2 cid cadActs s rows).1).accounts).map (fun a => a.name)).Nodup
  | [], s, h => h
  | r :: rest, s, h =>
      ingestRowsV2_names_nodup cid cadActs rest (ingestRowV2 cid cadActs s r).1
        (ingestRowV2_names_nodup cid cadActs s r h)

/-- Fan-out stamping, row view: contact id, type and content of every new
activity, in order. -/
theorem stampActivities_rows (ty content : String) :
    ∀ (ls : List Contact) (startId : Nat),
      (stampActivities startId ty content ls).map (fun a => (a.contact_id, a.type, a.content)) =
        ls.map (fun l => (l.id, ty, some content))
  | [], _ => rfl
  | l :: ls, startId => by
      simp [stampActivities, stampActivities_rows ty content ls (startId + 1)]

/-- Template stamping, row view: contact id, type and content of every new
activity, in order. -/
theorem templActivities_rows (contactId : Nat) :
    ∀ (cas : List CadenceActivity) (startId : Nat),
      (templActivities startId contactId cas).map (fun a => (a.contact_id, a.type, a.content)) =
        cas.map (fun ca => (contactId, ca.type, ca.content))
  | [], _ => rfl
  | ca :: rest, startId => by
      simp [templActivities, templActivities_rows contactId rest (startId + 1)]

/-- C2: a row whose email is empty or whitespace-only is skipped by both
ingestion variants — the store (hence every stored Contact) is unchanged and
the row contributes zero — and the returned count equals the number of
non-skipped rows of the batch. -/
theorem blank_email_rows_are_skipped (cid : Nat) :
    (∀ (s : Store) (r : Row), pyStrip r.email = "" → ingestRowV1 cid s r = (s, 0)) ∧
    (∀ (cadActs : List CadenceActivity) (s : Store) (r : Row), pyStrip r.email = "" →
      ingestRowV2 cid cadActs s r = (s, 0)) ∧
    (∀ (s : Store) (rows : List Row),
      (ingestContactsV1 cid s rows).2 =
        (rows.filter (fun r => !(pyStrip r.email == ""))).length) ∧
    (∀ (s : Store) (rows : List Row),
      (ingestLeadsV2 cid s rows).2 =
        (rows.filter (fun r => !(pyStrip r.email == ""))).length) := by
  refine ⟨fun s r h => ingestRowV1_skip cid s r h,
    fun cadActs s r h => ingestRowV2_skip cid cadActs s r h,
    fun s rows => ingestContactsV1_count cid rows s,
    fun s rows => ?_⟩
  unfold ingestLeadsV2
  exact ingestRowsV2_count cid _ rows s

/-- Witness for C2 at a concrete batch: the whitespace-email row leaves the
store untouched, and a two-row batch with one blank email counts 1. -/
theorem blank_email_rows_are_skipped_witness :
    ingestRowV1 1 sampleStore rowBlank = (sampleStore, 0) ∧
    (ingestContactsV1 1 sampleStore [rowBlank, rowGood]).2 = 1 := by
  constructor
  · exact (blank_email_rows_are_skipped 1).1 sampleStore rowBlank (by decide)
  · rw [(blank_email_rows_are_skipped 1).2.2.1 sampleStore [rowBlank, rowGood]]
    decide

/-- C3: adding a CadenceActivity template to a cadence with N existing
contacts creates exactly N new Activity rows, one per contact of that
cadence and in the same order, each copying the template's type and
(stripped) content; the only other change is the template row itself — all
other tables are untouched. -/
theorem cadence_activity_fanout (s : Store) (cid : Nat) (act_type content : String) :
    (addCadenceActivity s cid act_type content).activities =
      s.activities ++ stampActivities s.nextActivityId act_type (pyStrip content)
        (s.contacts.filter (fun l => l.cadence_id == cid)) ∧
    (stampActivities s.nextActivityId act_type (pyStrip content)
        (s.contacts.filter (fun l => l.cadence_id == cid))).length =
      (s.contacts.filter (fun l => l.cadence_id == cid)).length ∧
    (stampActivities s.nextActivityId act_type (pyStrip content)
        (s.contacts.filter (fun l => l.cadence_id == cid))).map
        (fun a => (a.contact_id, a.type, a.content)) =
      (s.contacts.filter (fun l => l.cadence_id == cid)).map
        (fun l => (l.id, act_type, some (pyStrip content))) ∧
    (addCadenceActivity s cid act_type content).cadenceActivities =
      s.cadenceActivities ++ [{ id := s.nextCadenceActivityId, cadence_id := cid,
                                type := act_type, content := some (pyStrip content) }] ∧
    (addCadenceActivity s cid act_type content).contacts = s.contacts ∧
    (addCadenceActivity s cid act_type content).accounts = s.accounts ∧
    (addCadenceActivity s cid act_type content).opportunities = s.opportunities ∧
    (addCadenceActivity s cid act_type content).campaigns = s.campaigns ∧
    (addCadenceActivity s cid act_type content).cadences = s.cadences ∧
    (addCadenceActivity s cid act_type content).documents = s.documents ∧
    (addCadenceActivity s cid act_type content).accountSignals = s.accountSignals :=
  ⟨rfl, stampActivities_length _ _ _ _, stampActivities_rows _ _ _ _,
   rfl, rfl, rfl, rfl, rfl, rfl, rfl, rfl⟩

/-- C5 counterexample: the code's classifier labels are "Mrktg: ...", not
the "Marketing: ..." labels the claim states, already on the title
"Head of SEO". -/
theorem classify_department_label_counterexample :
    classify_department (some "Head of SEO") = some "Mrktg: SEO" ∧
    ¬ classify_department (some "Head of SEO") = some "Marketing: SEO" := by
  exact ⟨by decide, by decide⟩

/-- C5 (amended): department classification is case-insensitive substring
matching with first match winning, in the order seo, management keywords,
marketing, with the code's literal labels "Mrktg: SEO" / "Mrktg: Management"
/ "Mrktg: General", everything else unclassified — i.e. the classifier
coincides with the spec-worded classifier carrying the corrected labels. -/
theorem classify_department_matches_amended_spec (title : Option String) :
    classify_department title = classify_department_spec title := by
  cases title with
  | none => rfl
  | some t =>
      by_cases h : t = ""
      · subst h; decide
      · simp [classify_department, classify_department_spec, h]

/-- C6: on a campaign with no cadence the metrics computation reports false
cadence presence and zero accounts, leads, engaged leads, exhausted leads,
signals and opportunities. -/
theorem metrics_without_cadence_all_zero (s : Store) (campaignId : Nat)
    (h : s.cadences.find? (fun cd => cd.campaign_id == campaignId) = none) :
    (computeMetrics s campaignId).hasCadence = false ∧
    (computeMetrics s campaignId).accountCount = 0 ∧
    (computeMetrics s campaignId).leadCount = 0 ∧
    (computeMetrics s campaignId).engagedLeads = 0 ∧
    (computeMetrics s campaignId).exhaustedLeads = 0 ∧
    (computeMetrics s campaignId).signalCount = 0 ∧
    (computeMetrics s campaignId).opportunityCount = 0 := by
  unfold computeMetrics
  rw [h]
  simp [deptFold]

/-- Witness for C6: the sample store has no cadence row at all, so campaign
1 reports false and all zeros. -/
theorem metrics_without_cadence_all_zero_witness :
    sampleStore.cadences.find? (fun cd => cd.campaign_id == 1) = none ∧
    ((computeMetrics sampleStore 1).hasCadence = false ∧
     (computeMetrics sampleStore 1).accountCount = 0 ∧
     (computeMetrics sampleStore 1).leadCount = 0 ∧
     (computeMetrics sampleStore 1).engagedLeads = 0 ∧
     (computeMetrics sampleStore 1).exhaustedLeads = 0 ∧
     (computeMetrics sampleStore 1).signalCount = 0 ∧
     (computeMetrics sampleStore 1).opportunityCount = 0) :=
  ⟨rfl, metrics_without_cadence_all_zero sampleStore 1 rfl⟩

/-- C8: submitting the create-campaign form with a non-empty name equal to
an existing campaign's name fails with the duplicate-name (conflict) error
and returns the store unchanged — no campaign row is created. -/
theorem duplicate_campaign_name_conflict (s : Store)
    (name ht ind icp ma trig prod story : String)
    (hname : ¬ name = "") (hdup : ∃ c ∈ s.campaigns, c.name = name) :
    createCampaign s name ht ind icp ma trig prod story =
      (s, some CreateError.conflict) := by
  obtain ⟨c, hc, hcn⟩ := hdup
  have hfound : (s.campaigns.find? (fun c2 => c2.name == name)).isSome = true := by
    cases hf : s.campaigns.find? (fun c2 => c2.name == name) with
    | some _ => rfl
    | none =>
        have hfc := List.find?_eq_none.mp hf c hc
        simp [hcn] at hfc
  unfold createCampaign
  rw [if_neg hname, if_pos hfound]

/-- Witness for C8: re-creating "Q1-SEO" in the sample store fails with the
conflict error and leaves the store as it was. -/
theorem duplicate_campaign_name_conflict_witness :
    ¬ "Q1-SEO" = "" ∧
    createCampaign sampleStore "Q1-SEO" "" "" "" "" "" "" "" =
      (sampleStore, some CreateError.conflict) :=
  ⟨by decide,
   duplicate_campaign_name_conflict sampleStore "Q1-SEO" "" "" "" "" "" "" ""
     (by decide) ⟨sampleCampaign, by decide, rfl⟩⟩

/-- Conversion of a found contact produces exactly the store with the status
update and the single appended opportunity. -/
theorem convertContact_eq (s : Store) (contactId : Nat) (stage : String) (amount : Rat)
    (c : Contact) (hfind : s.contacts.find? (fun c2 => c2.id == contactId) = some c) :
    convertContact s contactId stage amount =
      some { s with
        contacts := updateFirst (fun c2 => c2.id == contactId)
          (fun c2 => { c2 with status := "converted" }) s.contacts
        opportunities := s.opportunities ++
          [{ id := s.nextOpportunityId, contact_id := c.id, stage := stage, amount := amount }]
        nextOpportunityId := s.nextOpportunityId + 1 } := by
  unfold convertContact
  rw [hfind]

/-- C4: converting an existing contact succeeds, appends exactly one
opportunity carrying the given stage and amount and linked to that contact,
sets that contact's status to "converted", and is unconditional — it can be
repeated on the (now converted) contact, adding a further opportunity. -/
theorem convert_contact_creates_opportunity (s : Store) (contactId : Nat)
    (stage : String) (amount : Rat) (c : Contact)
    (hfind : s.contacts.find? (fun c2 => c2.id == contactId) = some c) :
    ∃ s', convertContact s contactId stage amount = some s' ∧
      s'.opportunities = s.opportunities ++
        [{ id := s.nextOpportunityId, contact_id := contactId,
           stage := stage, amount := amount }] ∧
      (∃ pre post, s.contacts = pre ++ c :: post ∧
        s'.contacts = pre ++ { c with status := "converted" } :: post) ∧
      (∀ (stage2 : String) (amount2 : Rat), ∃ s'',
        convertContact s' contactId stage2 amount2 = some s'' ∧
        s''.opportunities.length = s.opportunities.length + 2) := by
  have hpc : (fun c2 : Contact => c2.id == contactId) c = true :=
    @List.find?_some Contact (fun c2 => c2.id == contactId) c s.contacts hfind
  have hcid : c.id = contactId := by simpa using hpc
  obtain ⟨pre, post, hsplit, hpre⟩ := find?_decomp hfind
  have hcontacts : updateFirst (fun c2 => c2.id == contactId)
      (fun c2 => { c2 with status := "converted" }) s.contacts =
      pre ++ { c with status := "converted" } :: post := by
    rw [hsplit]
    exact updateFirst_append _ _ pre c post hpre hpc
  refine ⟨_, convertContact_eq s contactId stage amount c hfind, ?_, ?_, ?_⟩
  · simp [hcid]
  · exact ⟨pre, post, hsplit, hcontacts⟩
  · intro stage2 amount2
    have hfind2 : (updateFirst (fun c2 => c2.id == contactId)
        (fun c2 => { c2 with status := "converted" }) s.contacts).find?
        (fun c2 => c2.id == contactId) = some { c with status := "converted" } := by
      rw [hcontacts]
      exact find?_first_of_split _ pre _ post hpre hpc
    refine ⟨_, convertContact_eq _ contactId stage2 amount2 _ hfind2, ?_⟩
    simp

/-- Witness for C4: converting contact 1 of the sample store with stage
"Qualified" and amount 500. -/
theorem convert_contact_creates_opportunity_witness :
    sampleStore.contacts.find? (fun c2 => c2.id == 1) = some sampleContact ∧
    (∃ s', convertContact sampleStore 1 "Qualified" 500 = some s' ∧
      s'.opportunities = sampleStore.opportunities ++
        [{ id := sampleStore.nextOpportunityId, contact_id := 1,
           stage := "Qualified", amount := 500 }] ∧
      (∃ pre post, sampleStore.contacts = pre ++ sampleContact :: post ∧
        s'.contacts = pre ++ { sampleContact with status := "converted" } :: post) ∧
      (∀ (stage2 : String) (amount2 : Rat), ∃ s'',
        convertContact s' 1 stage2 amount2 = some s'' ∧
        s''.opportunities.length = sampleStore.opportunities.length + 2)) :=
  ⟨rfl, convert_contact_creates_opportunity sampleStore 1 "Qualified" 500 sampleContact rfl⟩

/-- C9: conversion changes nothing besides appending exactly one
opportunity — the opportunities table afterwards is the old table with the
one new row appended, so every pre-existing opportunity is unchanged — and
setting the converted contact's status: every other table, every other
contact, and every other field of the converted contact are unchanged. -/
theorem convert_contact_frame (s : Store) (contactId : Nat) (stage : String)
    (amount : Rat) (c : Contact)
    (hfind : s.contacts.find? (fun c2 => c2.id == contactId) = some c) :
    ∃ s', convertContact s contactId stage amount = some s' ∧
      s'.accounts = s.accounts ∧
      s'.accountSignals = s.accountSignals ∧
      s'.activities = s.activities ∧
      s'.documents = s.documents ∧
      s'.campaigns = s.campaigns ∧
      s'.cadences = s.cadences ∧
      s'.cadenceActivities = s.cadenceActivities ∧
      s'.opportunities = s.opportunities ++
        [{ id := s.nextOpportunityId, contact_id := contactId,
           stage := stage, amount := amount }] ∧
      (∃ pre post, s.contacts = pre ++ c :: post ∧
        s'.contacts = pre ++ { c with status := "converted" } :: post ∧
        ({ c with status := "converted" } : Contact).id = c.id ∧
        ({ c with status := "converted" } : Contact).cadence_id = c.cadence_id ∧
        ({ c with status := "converted" } : Contact).first_name = c.first_name ∧
        ({ c with status := "converted" } : Contact).last_name = c.last_name ∧
        ({ c with status := "converted" } : Contact).email = c.email ∧
        ({ c with status := "converted" } : Contact).account_id = c.account_id ∧
        ({ c with status := "converted" } : Contact).title = c.title) := by
  have hpc : (fun c2 : Contact => c2.id == contactId) c = true :=
    @List.find?_some Contact (fun c2 => c2.id == contactId) c s.contacts hfind
  have hcid : c.id = contactId := by simpa using hpc
  obtain ⟨pre, post, hsplit, hpre⟩ := find?_decomp hfind
  refine ⟨_, convertContact_eq s contactId stage amount c hfind,
    rfl, rfl, rfl, rfl, rfl, rfl, rfl, by simp [hcid], ?_⟩
  refine ⟨pre, post, hsplit, ?_, rfl, rfl, rfl, rfl, rfl, rfl, rfl⟩
  rw [hsplit]
  exact updateFirst_append _ _ pre c post hpre hpc

/-- Witness for C9 at the sample store. -/
theorem convert_contact_frame_witness :
    sampleStore.contacts.find? (fun c2 => c2.id == 1) = some sampleContact ∧
    (∃ s', convertContact sampleStore 1 "New" 0 = some s' ∧
      s'.accounts = sampleStore.accounts ∧
      s'.accountSignals = sampleStore.accountSignals ∧
      s'.activities = sampleStore.activities ∧
      s'.documents = sampleStore.documents ∧
      s'.campaigns = sampleStore.campaigns ∧
      s'.cadences = sampleStore.cadences ∧
      s'.cadenceActivities = sampleStore.cadenceActivities ∧
      s'.opportunities = sampleStore.opportunities ++
        [{ id := sampleStore.nextOpportunityId, contact_id := 1,
           stage := "New", amount := 0 }] ∧
      (∃ pre post, sampleStore.contacts = pre ++ sampleContact :: post ∧
        s'.contacts = pre ++ { sampleContact with status := "converted" } :: post ∧
        ({ sampleContact with status := "converted" } : Contact).id = sampleContact.id ∧
        ({ sampleContact with status := "converted" } : Contact).cadence_id = sampleContact.cadence_id ∧
        ({ sampleContact with status := "converted" } : Contact).first_name = sampleContact.first_name ∧
        ({ sampleContact with status := "converted" } : Contact).last_name = sampleContact.last_name ∧
        ({ sampleContact with status := "converted" } : Contact).email = sampleContact.email ∧
        ({ sampleContact with status := "converted" } : Contact).account_id = sampleContact.account_id ∧
        ({ sampleContact with status := "converted" } : Contact).title = sampleContact.title)) :=
  ⟨rfl, convert_contact_frame sampleStore 1 "New" 0 sampleContact rfl⟩

/-- The v1 ingestion step in the update case, as one store equation. -/
theorem ingestRowV1_update_eq (cid : Nat) (s : Store) (r : Row) (c : Contact)
    (hemail : ¬ pyStrip r.email = "")
    (hfind : ((resolveAccount s r).1).contacts.find?
      (contactMatch cid (pyStrip r.email)) = some c) :
    ingestRowV1 cid s r =
      ({ (resolveAccount s r).1 with
          contacts := updateFirst (contactMatch cid (pyStrip r.email))
            (fun c2 => updateExisting c2 r (resolveAccount s r).2)
            ((resolveAccount s r).1).contacts }, 1) := by
  unfold ingestRowV1
  rw [if_neg hemail, hfind]

/-- The v2 ingestion step in the update case, as one store equation. -/
theorem ingestRowV2_update_eq (cid : Nat) (cadActs : List CadenceActivity)
    (s : Store) (r : Row) (c : Contact)
    (hemail : ¬ pyStrip r.email = "")
    (hfind : ((resolveAccount s r).1).contacts.find?
      (contactMatch cid (pyStrip r.email)) = some c) :
    ingestRowV2 cid cadActs s r =
      ({ (resolveAccount s r).1 with
          contacts := updateFirst (contactMatch cid (pyStrip r.email))
            (fun c2 => updateExisting c2 r (resolveAccount s r).2)
            ((resolveAccount s r).1).contacts
          activities := ((resolveAccount s r).1).activities ++
            templActivities ((resolveAccount s r).1).nextActivityId c.id cadActs
          nextActivityId := ((resolveAccount s r).1).nextActivityId + cadActs.length }, 1) := by
  unfold ingestRowV2
  rw [if_neg hemail, hfind]

/-- The v2 ingestion step in the create case, as one store equation. -/
theorem ingestRowV2_create_eq (cid : Nat) (cadActs : List CadenceActivity)
    (s : Store) (r : Row)
    (hemail : ¬ pyStrip r.email = "")
    (hfind : ((resolveAccount s r).1).contacts.find?
      (contactMatch cid (pyStrip r.email)) = none) :
    ingestRowV2 cid cadActs s r =
      ({ (resolveAccount s r).1 with
          contacts := ((resolveAccount s r).1).contacts ++
            [newContact cid ((resolveAccount s r).1).nextContactId r
              (resolveAccount s r).2 (pyStrip r.email)]
          nextContactId := ((resolveAccount s r).1).nextContactId + 1
          activities := ((resolveAccount s r).1).activities ++
            templActivities ((resolveAccount s r).1).nextActivityId
              ((resolveAccount s r).1).nextContactId cadActs
          nextActivityId := ((resolveAccount s r).1).nextActivityId + cadActs.length }, 1) := by
  unfold ingestRowV2
  rw [if_neg hemail, hfind]

/-- C1: re-ingesting a row whose (email, cadence) pair matches the stored
contact `c` updates exactly that contact, in place, in both ingestion
variants; first/last name and title are overwritten only by non-empty
incoming values (an empty incoming value preserves the stored one, so a
stored non-empty value is never blanked), and when the row resolves an
account the contact is reassigned to the resolved account id. -/
theorem upsert_updates_nonempty_fields_only (s : Store) (cid : Nat) (r : Row)
    (c : Contact)
    (hemail : ¬ pyStrip r.email = "")
    (hfind : s.contacts.find? (contactMatch cid (pyStrip r.email)) = some c) :
    ∃ pre post,
      s.contacts = pre ++ c :: post ∧
      (ingestRowV1 cid s r).1.contacts =
        pre ++ updateExisting c r (resolveAccount s r).2 :: post ∧
      (∀ cadActs : List CadenceActivity, (ingestRowV2 cid cadActs s r).1.contacts =
        pre ++ updateExisting c r (resolveAccount s r).2 :: post) ∧
      (updateExisting c r (resolveAccount s r).2).first_name =
        (if r.first_name = "" then c.first_name else some r.first_name) ∧
      (updateExisting c r (resolveAccount s r).2).last_name =
        (if r.last_name = "" then c.last_name else some r.last_name) ∧
      (updateExisting c r (resolveAccount s r).2).title =
        (if r.title = "" then c.title else some r.title) ∧
      (¬ pyStrip r.account_name = "" →
        ((resolveAccount s r).2).isSome = true ∧
        (updateExisting c r (resolveAccount s r).2).account_id = (resolveAccount s r).2) ∧
      (∀ v, c.first_name = some v → ¬ v = "" →
        ∃ w, (updateExisting c r (resolveAccount s r).2).first_name = some w ∧ ¬ w = "") ∧
      (∀ v, c.last_name = some v → ¬ v = "" →
        ∃ w, (updateExisting c r (resolveAccount s r).2).last_name = some w ∧ ¬ w = "") ∧
      (∀ v, c.title = some v → ¬ v = "" →
        ∃ w, (updateExisting c r (resolveAccount s r).2).title = some w ∧ ¬ w = "") := by
  have hs1c : ((resolveAccount s r).1).contacts = s.contacts := (resolveAccount_frame s r).1
  have hfind1 : ((resolveAccount s r).1).contacts.find?
      (contactMatch cid (pyStrip r.email)) = some c := by rw [hs1c]; exact hfind
  have hpc := List.find?_some hfind
  obtain ⟨pre, post, hsplit, hpre⟩ := find?_decomp hfind
  have hupd : updateFirst (contactMatch cid (pyStrip r.email))
      (fun c2 => updateExisting c2 r (resolveAccount s r).2) s.contacts =
      pre ++ updateExisting c r (resolveAccount s r).2 :: post := by
    rw [hsplit]
    exact updateFirst_append _ _ pre c post hpre hpc
  refine ⟨pre, post, hsplit, ?_, ?_, rfl, rfl, rfl, ?_, ?_, ?_, ?_⟩
  · rw [ingestRowV1_update_eq cid s r c hemail hfind1]
    simpa [hs1c] using hupd
  · intro cadActs
    rw [ingestRowV2_update_eq cid cadActs s r c hemail hfind1]
    simpa [hs1c] using hupd
  · intro hacct
    refine ⟨resolveAccount_isSome s r hacct, ?_⟩
    simp [updateExisting, resolveAccount_isSome s r hacct]
  · intro v hv hvne
    by_cases hrf : r.first_name = ""
    · exact ⟨v, by simp [updateExisting, hrf, hv], hvne⟩
    · exact ⟨r.first_name, by simp [updateExisting, hrf], hrf⟩
  · intro v hv hvne
    by_cases hrf : r.last_name = ""
    · exact ⟨v, by simp [updateExisting, hrf, hv], hvne⟩
    · exact ⟨r.last_name, by simp [updateExisting, hrf], hrf⟩
  · intro v hv hvne
    by_cases hrf : r.title = ""
    · exact ⟨v, by simp [updateExisting, hrf, hv], hvne⟩
    · exact ⟨r.title, by simp [updateExisting, hrf], hrf⟩

/-- Witness for C1: re-ingesting `rowGood` (non-empty first name, empty last
name and title, existing account name) onto `sampleContact`. -/
theorem upsert_updates_nonempty_fields_only_witness :
    (¬ pyStrip rowGood.email = "") ∧
    sampleStore.contacts.find? (contactMatch 1 (pyStrip rowGood.email)) = some sampleContact ∧
    (∃ pre post,
      sampleStore.contacts = pre ++ sampleContact :: post ∧
      (ingestRowV1 1 sampleStore rowGood).1.contacts =
        pre ++ updateExisting sampleContact rowGood (resolveAccount sampleStore rowGood).2 :: post ∧
      (∀ cadActs : List CadenceActivity, (ingestRowV2 1 cadActs sampleStore rowGood).1.contacts =
        pre ++ updateExisting sampleContact rowGood (resolveAccount sampleStore rowGood).2 :: post) ∧
      (updateExisting sampleContact rowGood (resolveAccount sampleStore rowGood).2).first_name =
        (if rowGood.first_name = "" then sampleContact.first_name else some rowGood.first_name) ∧
      (updateExisting sampleContact rowGood (resolveAccount sampleStore rowGood).2).last_name =
        (if rowGood.last_name = "" then sampleContact.last_name else some rowGood.last_name) ∧
      (updateExisting sampleContact rowGood (resolveAccount sampleStore rowGood).2).title =
        (if rowGood.title = "" then sampleContact.title else some rowGood.title) ∧
      (¬ pyStrip rowGood.account_name = "" →
        ((resolveAccount sampleStore rowGood).2).isSome = true ∧
        (updateExisting sampleContact rowGood (resolveAccount sampleStore rowGood).2).account_id =
          (resolveAccount sampleStore rowGood).2) ∧
      (∀ v, sampleContact.first_name = some v → ¬ v = "" →
        ∃ w, (updateExisting sampleContact rowGood
          (resolveAccount sampleStore rowGood).2).first_name = some w ∧ ¬ w = "") ∧
      (∀ v, sampleContact.last_name = some v → ¬ v = "" →
        ∃ w, (updateExisting sampleContact rowGood
          (resolveAccount sampleStore rowGood).2).last_name = some w ∧ ¬ w = "") ∧
      (∀ v, sampleContact.title = some v → ¬ v = "" →
        ∃ w, (updateExisting sampleContact rowGood
          (resolveAccount sampleStore rowGood).2).title = some w ∧ ¬ w = "")) :=
  ⟨by decide, by decide,
   upsert_updates_nonempty_fields_only sampleStore 1 rowGood sampleContact
     (by decide) (by decide)⟩

/-- C7: in the apply-cadence-activities ingestion variant, every processed
row (updated or created contact alike) appends exactly one Activity per
template of the snapshot to the store — old activities are all kept, so
re-ingestion accumulates — each new Activity copying its template's type and
content and pointing at the resolved contact, which afterwards exists in the
store with the row's (cadence, email) key. -/
theorem ingest_applies_cadence_templates (cid : Nat) (cadActs : List CadenceActivity)
    (s : Store) (r : Row) (hemail : ¬ pyStrip r.email = "") :
    ∃ contactId,
      (ingestRowV2 cid cadActs s r).1.activities =
        s.activities ++ templActivities s.nextActivityId contactId cadActs ∧
      (templActivities s.nextActivityId contactId cadActs).length = cadActs.length ∧
      (templActivities s.nextActivityId contactId cadActs).map
          (fun a => (a.contact_id, a.type, a.content)) =
        cadActs.map (fun ca => (contactId, ca.type, ca.content)) ∧
      ∃ c2 ∈ (ingestRowV2 cid cadActs s r).1.contacts,
        c2.id = contactId ∧ c2.cadence_id = cid ∧ c2.email = pyStrip r.email := by
  obtain ⟨hs1c, hs1a, -, -, -, -, -, -, hs1cn, hs1n, -⟩ := resolveAccount_frame s r
  cases hf : ((resolveAccount s r).1).contacts.find? (contactMatch cid (pyStrip r.email)) with
  | some c =>
      have hm := List.find?_some hf
      have hmm : c.cadence_id = cid ∧ c.email = pyStrip r.email := by
        simpa [contactMatch] using hm
      obtain ⟨pre, post, hsplit, hpre⟩ := find?_decomp hf
      refine ⟨c.id, ?_, templActivities_length _ _ _, templActivities_rows _ _ _, ?_⟩
      · rw [ingestRowV2_update_eq cid cadActs s r c hemail hf]
        show ((resolveAccount s r).1).activities ++
            templActivities ((resolveAccount s r).1).nextActivityId c.id cadActs =
          s.activities ++ templActivities s.nextActivityId c.id cadActs
        rw [hs1a, hs1n]
      · refine ⟨updateExisting c r (resolveAccount s r).2, ?_, rfl, hmm.1, hmm.2⟩
        rw [ingestRowV2_update_eq cid cadActs s r c hemail hf]
        show updateExisting c r (resolveAccount s r).2 ∈
          updateFirst (contactMatch cid (pyStrip r.email))
            (fun c2 => updateExisting c2 r (resolveAccount s r).2)
            ((resolveAccount s r).1).contacts
        rw [hsplit, updateFirst_append _ _ pre c post hpre hm]
        exact List.mem_append.mpr (Or.inr (List.mem_cons_self _ _))
  | none =>
      refine ⟨s.nextContactId, ?_, templActivities_length _ _ _,
        templActivities_rows _ _ _, ?_⟩
      · rw [ingestRowV2_create_eq cid cadActs s r hemail hf]
        show ((resolveAccount s r).1).activities ++
            templActivities ((resolveAccount s r).1).nextActivityId
              ((resolveAccount s r).1).nextContactId cadActs =
          s.activities ++ templActivities s.nextActivityId s.nextContactId cadActs
        rw [hs1a, hs1n, hs1cn]
      · refine ⟨newContact cid ((resolveAccount s r).1).nextContactId r
          (resolveAccount s r).2 (pyStrip r.email), ?_, ?_, rfl, rfl⟩
        · rw [ingestRowV2_create_eq cid cadActs s r hemail hf]
          show newContact cid ((resolveAccount s r).1).nextContactId r
              (resolveAccount s r).2 (pyStrip r.email) ∈
            ((resolveAccount s r).1).contacts ++
              [newContact cid ((resolveAccount s r).1).nextContactId r
                (resolveAccount s r).2 (pyStrip r.email)]
          exact List.mem_append.mpr (Or.inr (List.mem_cons_self _ _))
        · rw [hs1cn]
          rfl

/-- Witness for C7: ingesting `rowGood` with the sample store's template
snapshot stamps one "email"/"intro" activity on the resolved contact. -/
theorem ingest_applies_cadence_templates_witness :
    (¬ pyStrip rowGood.email = "") ∧
    (∃ contactId,
      (ingestRowV2 1 sampleStore.cadenceActivities sampleStore rowGood).1.activities =
        sampleStore.activities ++
          templActivities sampleStore.nextActivityId contactId sampleStore.cadenceActivities ∧
      (templActivities sampleStore.nextActivityId contactId
          sampleStore.cadenceActivities).length = sampleStore.cadenceActivities.length ∧
      (templActivities sampleStore.nextActivityId contactId
          sampleStore.cadenceActivities).map (fun a => (a.contact_id, a.type, a.content)) =
        sampleStore.cadenceActivities.map (fun ca => (contactId, ca.type, ca.content)) ∧
      ∃ c2 ∈ (ingestRowV2 1 sampleStore.cadenceActivities sampleStore rowGood).1.contacts,
        c2.id = contactId ∧ c2.cadence_id = 1 ∧ c2.email = pyStrip rowGood.email) :=
  ⟨by decide,
   ingest_applies_cadence_templates 1 sampleStore.cadenceActivities sampleStore rowGood
     (by decide)⟩

/-- C10: ingestion preserves account-name uniqueness in both variants — a
batch run on a store with pairwise-distinct account names leaves the names
pairwise distinct — and a row naming an already-stored account resolves to
exactly that account without creating anything. -/
theorem ingestion_preserves_account_name_uniqueness (cid : Nat) (s : Store)
    (rows : List Row)
    (hnodup : (s.accounts.map (fun a => a.name)).Nodup) :
    ((((ingestContactsV1 cid s rows).1).accounts).map (fun a => a.name)).Nodup ∧
    ((((ingestLeadsV2 cid s rows).1).accounts).map (fun a => a.name)).Nodup ∧
    (∀ (r : Row) (a : Account), ¬ pyStrip r.account_name = "" → a ∈ s.accounts →
      a.name = pyStrip r.account_name → resolveAccount s r = (s, some a.id)) := by
  refine ⟨ingestContactsV1_names_nodup cid rows s hnodup, ?_,
    fun r a hne ha hn => resolveAccount_reuses s r a hnodup hne ha hn⟩
  unfold ingestLeadsV2
  exact ingestRowsV2_names_nodup cid _ rows s hnodup

/-- Witness for C10 on the sample store and a two-row batch. -/
theorem ingestion_preserves_account_name_uniqueness_witness :
    (sampleStore.accounts.map (fun a => a.name)).Nodup ∧
    (((((ingestContactsV1 1 sampleStore [rowGood, rowBlank]).1).accounts).map
        (fun a => a.name)).Nodup ∧
     ((((ingestLeadsV2 1 sampleStore [rowGood, rowBlank]).1).accounts).map
        (fun a => a.name)).Nodup ∧
     (∀ (r : Row) (a : Account), ¬ pyStrip r.account_name = "" →
       a ∈ sampleStore.accounts → a.name = pyStrip r.account_name →
       resolveAccount sampleStore r = (sampleStore, some a.id))) :=
  ⟨by decide,
   ingestion_preserves_account_name_uniqueness 1 sampleStore [rowGood, rowBlank]
     (by decide)⟩
